import Mathlib

/-!
Shallow embedding of the bili-sync incremental synchronizer and download
pipeline (src/processor.py, src/models.py, src/constants.py, src/utils.py).

Conventions of the embedding:
* machine state that the Python code reaches through side effects is passed
  explicitly: the database is a `List FavoriteItem`, the filesystem is the
  list of paths that exist, remote-call outcomes are an `Env` record, and
  observable actions (network fetches, subprocess invocations, file writes,
  deletions, saves, log lines) are accumulated in a `List Effect`;
* timestamps are `Int` (Unix seconds), remote ids (`bvid`) are `String`;
* `settings.path_mapper` is configuration read from a file, so the path
  helpers of `models.py` take the mapping `pm : Nat → String` as an argument.
-/

/-- Enum `MediaType` from src/constants.py. -/
inductive MediaType where
  | video
  | audio
  | videoCollection
deriving DecidableEq, Repr

/-- Enum `MediaStatus` from src/constants.py. -/
inductive MediaStatus where
  | normal
  | invisible
  | deleted
deriving DecidableEq, Repr

/-- One media record of a remote listing page, with the fields that
`manage_model` (src/processor.py) reads from it. -/
structure Media where
  title : String
  type : MediaType
  bvid : String
  intro : String
  cover : String
  upper_mid : Nat
  upper_name : String
  upper_face : String
  ctime : Int
  pubtime : Int
  fav_time : Int
deriving DecidableEq, Repr

/-- A row of the `FavoriteItem` table (src/models.py), restricted to the
fields the processor reads or writes. -/
structure FavoriteItem where
  name : String
  type : MediaType
  status : MediaStatus
  bvid : String
  desc : String
  cover : String
  tags : Option (List String)
  favorite_list_id : Nat
  upper_id : Nat
  ctime : Int
  pubtime : Int
  fav_time : Int
  downloaded : Bool
deriving DecidableEq, Repr

/-- A row of the `Upper` table (src/models.py). -/
structure Upper where
  mid : Nat
  name : String
  thumb : String
deriving DecidableEq, Repr

/-- The `FavoriteItem` row that `manage_model` builds from one media record
(src/processor.py lines 49-64); `status` takes the column default
`MediaStatus.NORMAL` and `tags` the column default `null` (src/models.py). -/
def mkFavoriteItem (favId : Nat) (m : Media) : FavoriteItem :=
  { name := m.title
    type := m.type
    status := .normal
    bvid := m.bvid
    desc := m.intro
    cover := m.cover
    tags := none
    favorite_list_id := favId
    upper_id := m.upper_mid
    ctime := m.ctime
    pubtime := m.pubtime
    fav_time := m.fav_time
    downloaded := false }

/-- Whether row `r` matches the unique key `(bvid, favorite_list_id)` of
row `n` (src/models.py `unique_together`). -/
def sameKey (r n : FavoriteItem) : Bool :=
  r.bvid == n.bvid && r.favorite_list_id == n.favorite_list_id

/-- The `on_conflict` update of an existing row by a fresh row `n`: exactly the
`update_fields` of src/processor.py lines 68-76 are refreshed; `status`,
`downloaded`, `tags` and `upper_id` keep the stored values. -/
def updateFields (n r : FavoriteItem) : FavoriteItem :=
  { r with
    name := n.name
    type := n.type
    desc := n.desc
    cover := n.cover
    ctime := n.ctime
    pubtime := n.pubtime
    fav_time := n.fav_time }

/-- One row of `FavoriteItem.bulk_create(..., on_conflict=["bvid",
"favorite_list_id"], update_fields=[...])`: update in place on key
conflict, append otherwise. -/
def upsert_item (db : List FavoriteItem) (n : FavoriteItem) : List FavoriteItem :=
  if db.any (fun r => sameKey r n) then
    db.map (fun r => if sameKey r n then updateFields n r else r)
  else
    db ++ [n]

/-- One row of `Upper.bulk_create(uppers, on_conflict=["mid"],
update_fields=["name", "thumb"])` (src/processor.py line 48). -/
def upsert_upper (db : List Upper) (n : Upper) : List Upper :=
  if db.any (fun r => r.mid == n.mid) then
    db.map (fun r => if r.mid == n.mid then { r with name := n.name, thumb := n.thumb } else r)
  else
    db ++ [n]

/-- The `Upper` half of `manage_model` (src/processor.py lines 40-48). -/
def manage_uppers (medias : List Media) (db : List Upper) : List Upper :=
  medias.foldl (fun d m => upsert_upper d ⟨m.upper_mid, m.upper_name, m.upper_face⟩) db

/-- The `FavoriteItem` half of `manage_model` (src/processor.py lines
39-77): upsert every media record of a listing page into the table. -/
def manage_model (favId : Nat) (medias : List Media) (db : List FavoriteItem) :
    List FavoriteItem :=
  medias.foldl (fun d m => upsert_item d (mkFavoriteItem favId m)) db

/-- One remote listing-page response, as consumed by `process_favorite`
(src/processor.py): its `medias` list and its `has_more` flag. -/
structure PageResponse where
  medias : List Media
  has_more : Bool
deriving DecidableEq, Repr

/-- The `continue_flag` computation of src/processor.py lines 118-128:
`existed_items` is the stored rows of this collection whose `bvid` occurs on
the current page, and the flag is true iff no `(bvid, fav_time)` pair of the
page equals a stored pair. -/
def continue_flag (favId : Nat) (medias : List Media) (db : List FavoriteItem) : Bool :=
  let existed_items := db.filter
    (fun it => it.favorite_list_id == favId && medias.any (fun m => m.bvid == it.bvid))
  !(medias.any (fun m =>
    existed_items.any (fun it => it.bvid == m.bvid && it.fav_time == m.fav_time)))

/-- The loop body's exit decision (src/processor.py line 130): the loop
breaks unless `continue_flag && has_more`. -/
def stop_now (favId : Nat) (resp : PageResponse) (db : List FavoriteItem) : Bool :=
  !(continue_flag favId resp.medias db && resp.has_more)

/-- The paging loop of `process_favorite` (src/processor.py lines 111-131),
with the remote listing given as the list of its page responses (head =
page 1, as pre-fetched on line 98).  Returns the page numbers fetched, in
order, and the database after all upserts.  `pageNum` is the number of the
page at the head of `remote`. -/
def sync_pages (favId : Nat) :
    List PageResponse → Nat → List FavoriteItem → List Nat × List FavoriteItem
  | [], _, db => ([], db)
  | resp :: rest, pageNum, db =>
    let cf := continue_flag favId resp.medias db
    let db2 := manage_model favId resp.medias db
    if cf && resp.has_more then
      let r := sync_pages favId rest (pageNum + 1) db2
      (pageNum :: r.1, r.2)
    else
      ([pageNum], db2)

/-- Function `process_favorite`, synchronization phase: pages start at 1. -/
def process_favorite_sync (favId : Nat) (remote : List PageResponse)
    (db : List FavoriteItem) : List Nat × List FavoriteItem :=
  sync_pages favId remote 1 db

/-- The database after upserting a prefix of listing pages, used to phrase
what "the persisted entries" are at the moment a given page is examined. -/
def dbAfter (favId : Nat) (db : List FavoriteItem) (pages : List PageResponse) :
    List FavoriteItem :=
  pages.foldl (fun d p => manage_model favId p.medias d) db

/-! ### The Item Processor (src/processor.py `process_favorite_item`)

Side effects are made explicit: the filesystem is the list of existing
paths, remote outcomes are an `Env`, and every observable action is
recorded as an `Effect`. -/

/-- Constant `FFMPEG_COMMAND` from src/constants.py. -/
def FFMPEG_COMMAND : String := "ffmpeg"

/-- Observable actions of one `process_favorite_item` run. `netCall` is a
remote API call (tags, stream resolution, timed comments), `netFetch` is
`download_content(url, path)` (src/utils.py), `subprocessExec` is
`create_subprocess_exec`, `save` is `fav_item.save()`. -/
inductive Effect where
  | logInfo (tag : String)
  | logWarning (tag : String)
  | logError (tag : String)
  | logException (tag : String)
  | netCall (tag : String)
  | netFetch (url : String) (path : String)
  | fileWrite (path : String)
  | subprocessExec (cmd : String) (args : List String)
  | unlink (path : String)
  | save
deriving DecidableEq, Repr

/-- The filesystem, as the list of paths that currently exist. -/
abbrev FS := List String

/-- Function `aexists` from src/utils.py. -/
def aexists (fs : FS) (p : String) : Bool := decide (p ∈ fs)

/-- Creating a file at `p` (idempotent: the path list stays duplicate-free). -/
def fsInsert (fs : FS) (p : String) : FS := if p ∈ fs then fs else fs ++ [p]

/-- Deletion `Path.unlink`: the path no longer exists. -/
def fsRemove (fs : FS) (p : String) : FS := fs.filter (fun q => decide (q ≠ p))

/-- Property `FavoriteItem.video_path` (src/models.py): `path_mapper[flid]/bvid.mp4`. -/
def video_path (pm : Nat → String) (it : FavoriteItem) : String :=
  pm it.favorite_list_id ++ "/" ++ it.bvid ++ ".mp4"

/-- Property `FavoriteItem.tmp_video_path` (src/models.py). -/
def tmp_video_path (pm : Nat → String) (it : FavoriteItem) : String :=
  pm it.favorite_list_id ++ "/tmp_" ++ it.bvid ++ "_video"

/-- Property `FavoriteItem.tmp_audio_path` (src/models.py). -/
def tmp_audio_path (pm : Nat → String) (it : FavoriteItem) : String :=
  pm it.favorite_list_id ++ "/tmp_" ++ it.bvid ++ "_audio"

/-- Property `FavoriteItem.nfo_path` (src/models.py). -/
def nfo_path (pm : Nat → String) (it : FavoriteItem) : String :=
  pm it.favorite_list_id ++ "/" ++ it.bvid ++ ".nfo"

/-- Property `FavoriteItem.poster_path` (src/models.py). -/
def poster_path (pm : Nat → String) (it : FavoriteItem) : String :=
  pm it.favorite_list_id ++ "/" ++ it.bvid ++ "-poster.jpg"

/-- Property `FavoriteItem.subtitle_path` (src/models.py). -/
def subtitle_path (pm : Nat → String) (it : FavoriteItem) : String :=
  pm it.favorite_list_id ++ "/" ++ it.bvid ++ ".zh-CN.default.ass"

/-- Property `Upper.thumb_path` (src/models.py); `thumb` stands for the configured
`DEFAULT_THUMB_PATH` root. -/
def thumb_path (mid : Nat) : String :=
  "thumb/" ++ (toString mid).take 1 ++ "/" ++ toString mid ++ "/folder.jpg"

/-- Property `Upper.meta_path` (src/models.py). -/
def meta_path (mid : Nat) : String :=
  "thumb/" ++ (toString mid).take 1 ++ "/" ++ toString mid ++ "/person.nfo"

/-- The stream shape selected by `VideoDownloadURLDataDetecter`
(src/processor.py lines 287-291): a single combined FLV stream, or
separate best video and audio streams. -/
inductive Streams where
  | flv (url : String)
  | dash (videoUrl : String) (audioUrl : String)
deriving DecidableEq, Repr

/-- Outcome of `v.get_download_url` / stream detection: success with a
stream shape, a `ResponseCodeException` with a code, or any other
exception. -/
inductive VideoResolve where
  | ok (streams : Streams)
  | codeErr (code : Int)
  | exn
deriving DecidableEq, Repr

/-- Remote/external outcomes consumed by one `process_favorite_item` run:
`tagsResult = none` means `v.get_tags()` raises; the `Ok` flags tell
whether the corresponding download/remote call succeeds; `muxExit` is the
ffmpeg exit status. -/
structure Env where
  tagsResult : Option (List String)
  thumbOk : Bool
  posterOk : Bool
  subtitleOk : Bool
  resolve : VideoResolve
  dlVideoOk : Bool
  dlAudioOk : Bool
  muxExit : Nat
deriving DecidableEq, Repr

/-- State threaded through the sub-steps of `process_favorite_item`. -/
structure RunState where
  item : FavoriteItem
  fs : FS
  effs : List Effect
deriving DecidableEq, Repr

/-- Tag enrichment (src/processor.py lines 159-168): fetch tags only when
unset; a failure is caught and logged. -/
def tags_step (env : Env) (s : RunState) : RunState :=
  match s.item.tags with
  | some _ => s
  | none =>
    match env.tagsResult with
    | some l =>
      { s with item := { s.item with tags := some l }, effs := s.effs ++ [.netCall "get_tags"] }
    | none => { s with effs := s.effs ++ [.netCall "get_tags", .logException "get_tags"] }

/-- Modelled from the spec: `Upper.save_metadata` is called at
src/processor.py line 180 but its body is not under src/ (only the caller
is); per the spec's uploader sub-step it "write[s] a metadata sidecar" for
the uploader, i.e. creates the file at `meta_path`. -/
def save_metadata (mid : Nat) (fs : FS) : FS := fsInsert fs (meta_path mid)

/-- Uploader metadata + avatar (src/processor.py lines 170-195): skip when
both files exist; otherwise `save_metadata` writes the sidecar and
`download_content` fetches the avatar, gathered with
`return_exceptions=True` so a failed avatar download is recorded but not
raised. -/
def upper_step (env : Env) (upper : Upper) (s : RunState) : RunState :=
  if aexists s.fs (thumb_path upper.mid) && aexists s.fs (meta_path upper.mid) then
    { s with effs := s.effs ++ [.logInfo "upper_exists"] }
  else
    let fs1 := save_metadata upper.mid s.fs
    let fs2 := if env.thumbOk then fsInsert fs1 (thumb_path upper.mid) else fs1
    { s with fs := fs2,
             effs := s.effs ++
               [.fileWrite (meta_path upper.mid), .netFetch upper.thumb (thumb_path upper.mid)] }

/-- NFO sidecar (src/processor.py lines 197-224): local write, skipped when
the file exists. -/
def nfo_step (pm : Nat → String) (s : RunState) : RunState :=
  if aexists s.fs (nfo_path pm s.item) then
    { s with effs := s.effs ++ [.logInfo "nfo_exists"] }
  else
    { s with fs := fsInsert s.fs (nfo_path pm s.item),
             effs := s.effs ++ [.fileWrite (nfo_path pm s.item)] }

/-- Poster image (src/processor.py lines 226-248): skipped when the file
exists; a failed download is logged. -/
def poster_step (pm : Nat → String) (env : Env) (s : RunState) : RunState :=
  if aexists s.fs (poster_path pm s.item) then
    { s with effs := s.effs ++ [.logInfo "poster_exists"] }
  else if env.posterOk then
    { s with fs := fsInsert s.fs (poster_path pm s.item),
             effs := s.effs ++ [.netFetch s.item.cover (poster_path pm s.item)] }
  else
    { s with effs := s.effs ++
        [.netFetch s.item.cover (poster_path pm s.item), .logException "poster"] }

/-- Danmaku subtitle sidecar (src/processor.py lines 250-275): skipped when
the file exists; the remote call failure is logged. -/
def subtitle_step (pm : Nat → String) (env : Env) (s : RunState) : RunState :=
  if aexists s.fs (subtitle_path pm s.item) then
    { s with effs := s.effs ++ [.logInfo "subtitle_exists"] }
  else if env.subtitleOk then
    { s with fs := fsInsert s.fs (subtitle_path pm s.item),
             effs := s.effs ++ [.netCall "danmaku", .fileWrite (subtitle_path pm s.item)] }
  else
    { s with effs := s.effs ++ [.netCall "danmaku", .logException "danmaku"] }

/-- ffmpeg arguments of the single-input transcode invocation
(src/processor.py lines 293-300). -/
def flv_mux_args (pm : Nat → String) (it : FavoriteItem) : List String :=
  ["-i", tmp_video_path pm it, video_path pm it]

/-- ffmpeg arguments of the two-input stream-copy invocation
(src/processor.py lines 308-319). -/
def dash_mux_args (pm : Nat → String) (it : FavoriteItem) : List String :=
  ["-i", tmp_video_path pm it, "-i", tmp_audio_path pm it, "-c", "copy", video_path pm it]

/-- The video sub-step (src/processor.py lines 276-345).  Mirrors the
source exactly: when the final file exists the step only marks
`downloaded`; otherwise streams are resolved; `communicate()` does not
inspect the exit status, so the temp files are unlinked and `downloaded`
is set even when ffmpeg exits non-zero (the output file is then absent);
a `ResponseCodeException` maps 62002 to Invisible and -404 to Deleted and
logs any other code; any other exception is logged.  The two fetches of
the dash shape are gathered concurrently in the source; the model records
both effects in program order. -/
def video_step (pm : Nat → String) (env : Env) (s : RunState) : RunState :=
  let it := s.item
  if aexists s.fs (video_path pm it) then
    { s with item := { it with downloaded := true }, effs := s.effs ++ [.logInfo "video_exists"] }
  else
    match env.resolve with
    | .codeErr c =>
      let it2 :=
        if c = 62002 then { it with status := .invisible }
        else if c = -404 then { it with status := .deleted }
        else it
      let effs1 := s.effs ++ [.netCall "get_download_url"] ++
        (if c = 62002 then [] else if c = -404 then [] else [.logException "video_error_code"])
      let effs2 := effs1 ++
        (if it2.status ≠ .normal then [.logError "video_unavailable"] else [])
      { s with item := it2, effs := effs2 }
    | .exn =>
      { s with effs := s.effs ++ [.netCall "get_download_url", .logException "video"] }
    | .ok streams =>
      match streams with
      | .flv url =>
        let tv := tmp_video_path pm it
        if env.dlVideoOk then
          let fs1 := fsInsert s.fs tv
          let fs2 := if env.muxExit = 0 then fsInsert fs1 (video_path pm it) else fs1
          { item := { it with downloaded := true },
            fs := fsRemove fs2 tv,
            effs := s.effs ++ [.netCall "get_download_url", .netFetch url tv,
              .subprocessExec FFMPEG_COMMAND (flv_mux_args pm it), .unlink tv] }
        else
          { s with effs := s.effs ++
              [.netCall "get_download_url", .netFetch url tv, .logException "video"] }
      | .dash vurl aurl =>
        let tv := tmp_video_path pm it
        let ta := tmp_audio_path pm it
        if env.dlVideoOk && env.dlAudioOk then
          let fs1 := fsInsert (fsInsert s.fs tv) ta
          let fs2 := if env.muxExit = 0 then fsInsert fs1 (video_path pm it) else fs1
          { item := { it with downloaded := true },
            fs := fsRemove (fsRemove fs2 tv) ta,
            effs := s.effs ++ [.netCall "get_download_url", .netFetch vurl tv, .netFetch aurl ta,
              .subprocessExec FFMPEG_COMMAND (dash_mux_args pm it), .unlink tv, .unlink ta] }
        else
          let fs1 := if env.dlVideoOk then fsInsert s.fs tv else s.fs
          let fs2 := if env.dlAudioOk then fsInsert fs1 ta else fs1
          { s with fs := fs2,
                   effs := s.effs ++ [.netCall "get_download_url", .netFetch vurl tv,
                     .netFetch aurl ta, .logException "video"] }

/-- Function `process_favorite_item` (src/processor.py lines 145-351): warn and
return for non-video entries before touching anything; otherwise run the
tag, uploader, nfo, poster, subtitle and video sub-steps in source order,
each guarded by its flag, and save the row once at the end. -/
def process_favorite_item (pm : Nat → String) (env : Env) (upper : Upper)
    (process_poster process_video process_nfo process_upper process_subtitle : Bool)
    (fav_item : FavoriteItem) (fs : FS) : RunState :=
  let s0 : RunState := ⟨fav_item, fs, [.logInfo "start"]⟩
  if fav_item.type ≠ .video then
    { s0 with effs := s0.effs ++ [.logWarning "not_video"] }
  else
    let s1 := tags_step env s0
    let s2 := if process_upper then upper_step env upper s1 else s1
    let s3 := if process_nfo then nfo_step pm s2 else s2
    let s4 := if process_poster then poster_step pm env s3 else s3
    let s5 := if process_subtitle then subtitle_step pm env s4 else s4
    let s6 := if process_video then video_step pm env s5 else s5
    { s6 with effs := s6.effs ++ [.save, .logInfo "processed"] }

/-- Network effects: remote API calls and content downloads. -/
def isNetworkEff : Effect → Bool
  | .netCall _ => true
  | .netFetch _ _ => true
  | _ => false

/-- Mux-tool (subprocess) invocations. -/
def isMuxEff : Effect → Bool
  | .subprocessExec _ _ => true
  | _ => false

/-! ### The Orchestrator (src/processor.py lines 26-36 and 138-141)

`process_favorite` launches one `process_favorite_item` per unprocessed
entry with `asyncio.gather(..., return_exceptions=True)`, and every
invocation runs under the single module-level `Semaphore(4)` installed by
`concurrent_decorator(4)`. -/

/-- The call `asyncio.gather(*[process_favorite_item(item) for item in items],
return_exceptions=True)`: each entry's outcome — normal result or captured
exception — is computed from that entry alone and returned in order; the
return type being a plain list (not `Except`) is the embedding of "no
per-entry exception is re-raised to the caller". `f` is the outcome of one
Item Processor invocation. -/
def runAll {α ε : Type} (f : α → Except ε Unit) (entries : List α) : List (Except ε Unit) :=
  entries.map f

/-- Phase of one Item Processor invocation with respect to the semaphore of
`concurrent_decorator`: `pending` before `async with sem` admits it,
`running` while it holds the semaphore (its body is in flight), `finished`
after the body returned and the semaphore was released. -/
inductive TaskPhase where
  | pending
  | running
  | finished
deriving DecidableEq, Repr

/-- One entry's invocation, tagged with the collection it came from: the
semaphore of src/processor.py line 27 is created once at module load, so
invocations of every collection contend for the same counter. -/
structure OrchTask where
  favoriteId : Nat
  phase : TaskPhase
deriving DecidableEq, Repr

/-- Number of invocations currently past the semaphore, over all
collections. -/
def inFlight (ts : List OrchTask) : Nat :=
  (ts.filter (fun t => t.phase == .running)).length

/-- Semantics of `async with sem` around the body of
`process_favorite_item` (src/processor.py lines 30-32): a pending
invocation may start only while fewer than `cap` invocations hold the
semaphore (`Semaphore(value=cap)` blocks otherwise), and a running
invocation may finish, releasing it.  The event loop interleaves these two
transitions in any order. -/
inductive OrchStep (cap : Nat) : List OrchTask → List OrchTask → Prop where
  | acquire (pre post : List OrchTask) (t : OrchTask) :
      t.phase = .pending →
      inFlight (pre ++ t :: post) < cap →
      OrchStep cap (pre ++ t :: post) (pre ++ { t with phase := .running } :: post)
  | release (pre post : List OrchTask) (t : OrchTask) :
      t.phase = .running →
      OrchStep cap (pre ++ t :: post) (pre ++ { t with phase := .finished } :: post)

/-- States the orchestrator can reach from `s0` by event-loop scheduling. -/
def OrchReachable (cap : Nat) (s0 s : List OrchTask) : Prop :=
  Relation.ReflTransGen (OrchStep cap) s0 s

/-! ### The synchronization cycle gate (src/processor.py `process`,
lines 80-93) -/

/-- Outcomes consumed by one `process()` cycle: the current date (as a day
ordinal), `credential.check_refresh()`, and whether `credential.refresh()`
succeeds (`refreshOk = false` models the raised exception). -/
structure CycleEnv where
  today : Nat
  needsRefresh : Bool
  refreshOk : Bool
deriving DecidableEq, Repr

/-- Observable outcome of one `process()` cycle. -/
structure CycleResult where
  anchor : Nat
  checked : Bool
  refreshAttempted : Bool
  synced : List Nat
deriving DecidableEq, Repr

/-- Function `process()` (src/processor.py lines 80-93): when today is strictly
after the stored anchor, advance the anchor and check the credential; a
failing refresh returns before the `process_favorite` loop; otherwise every
configured favorite id is synchronized in order. -/
def process (env : CycleEnv) (anchor0 : Nat) (favoriteIds : List Nat) : CycleResult :=
  if anchor0 < env.today then
    if env.needsRefresh then
      if env.refreshOk then ⟨env.today, true, true, favoriteIds⟩
      else ⟨env.today, true, true, []⟩
    else ⟨env.today, true, false, favoriteIds⟩
  else ⟨anchor0, false, false, favoriteIds⟩

/-! ### Derived definitions used by the statements -/

/-- A well-formed remote listing: its last page (if any) reports
`has_more = false`, which is how the remote signals exhaustion. -/
def last_page_final (remote : List PageResponse) : Bool :=
  match remote.getLast? with
  | none => true
  | some r => !r.has_more

/-- The five sub-steps of `process_favorite_item` that precede the video
sub-step, in source order (tags, uploader, nfo, poster, subtitle). -/
def metadata_steps (pm : Nat → String) (env : Env) (upper : Upper) (s : RunState) : RunState :=
  subtitle_step pm env (poster_step pm env (nfo_step pm (upper_step env upper (tags_step env s))))

/-- The paths the metadata sub-steps may create for item `it` of uploader
`mid`. -/
def artifact_paths (pm : Nat → String) (it : FavoriteItem) (mid : Nat) : List String :=
  [meta_path mid, thumb_path mid, nfo_path pm it, poster_path pm it, subtitle_path pm it]

/-- Whether row `r` carries the unique key `(b, fid)`. -/
def keyMatches (b : String) (fid : Nat) (r : FavoriteItem) : Bool :=
  r.bvid == b && r.favorite_list_id == fid

/-- Number of rows with key `(b, fid)` in the table. -/
def keyCount (db : List FavoriteItem) (b : String) (fid : Nat) : Nat :=
  db.countP (keyMatches b fid)

/-- The uniqueness invariant of src/models.py `unique_together`:
no key occurs on two rows. -/
def uniqueKeys (db : List FavoriteItem) : Prop :=
  ∀ b fid, keyCount db b fid ≤ 1

/-! ### Concrete fixtures used by witnesses and counterexamples -/

/-- A media record with the given remote id and favorited time. -/
def exMedia (b : String) (t : Int) : Media :=
  { title := "title", type := .video, bvid := b, intro := "", cover := "",
    upper_mid := 1, upper_name := "up", upper_face := "", ctime := 0, pubtime := 0, fav_time := t }

/-- A three-page remote listing; pages 1 and 2 report more pages, page 3 is
last. -/
def exRemote : List PageResponse :=
  [⟨[exMedia "a" 10, exMedia "b" 9], true⟩,
   ⟨[exMedia "c" 8, exMedia "d" 7], true⟩,
   ⟨[exMedia "e" 6, exMedia "f" 5], false⟩]

/-- A persisted table holding the pair `("c", 8)` that occurs on page 2 of
`exRemote`. -/
def exDb : List FavoriteItem := [mkFavoriteItem 1 (exMedia "c" 8)]

/-- A video entry not yet downloaded. -/
def exItem : FavoriteItem :=
  { name := "v", type := .video, status := .normal, bvid := "BVx", desc := "", cover := "http-c",
    tags := some [], favorite_list_id := 1, upper_id := 7, ctime := 0, pubtime := 0, fav_time := 0,
    downloaded := false }

/-- A constant path mapping. -/
def exPm : Nat → String := fun _ => "root"

/-- The uploader row of `exItem`. -/
def exUpper : Upper := ⟨7, "u", "http-t"⟩

/-- An environment where every remote call succeeds, streams are separate
video+audio, and the mux tool exits with status 1. -/
def exEnvMuxFail : Env :=
  { tagsResult := some [], thumbOk := true, posterOk := true, subtitleOk := true,
    resolve := .ok (.dash "hv" "ha"), dlVideoOk := true, dlAudioOk := true, muxExit := 1 }

/-- An environment where everything succeeds and the stream is a single
combined FLV stream. -/
def exEnvFlv : Env :=
  { tagsResult := some [], thumbOk := true, posterOk := true, subtitleOk := true,
    resolve := .ok (.flv "u"), dlVideoOk := true, dlAudioOk := true, muxExit := 0 }

/-- An environment where stream resolution fails with the remote "deleted"
code. -/
def exEnvDeleted : Env :=
  { tagsResult := some [], thumbOk := true, posterOk := true, subtitleOk := true,
    resolve := .codeErr (-404), dlVideoOk := true, dlAudioOk := true, muxExit := 0 }

/-- An environment where every remote call succeeds and the mux tool exits
with status 0. -/
def exEnvOk : Env :=
  { tagsResult := some [], thumbOk := true, posterOk := true, subtitleOk := true,
    resolve := .ok (.dash "hv" "ha"), dlVideoOk := true, dlAudioOk := true, muxExit := 0 }

/-- Twenty pending Item Processor invocations drawn from two collections. -/
def exTasks : List OrchTask :=
  (List.range 20).map (fun i => ⟨i % 2, .pending⟩)

/-! ### Basic lemmas about the filesystem model -/

theorem mem_fsInsert_iff (fs : FS) (p q : String) : p ∈ fsInsert fs q ↔ p ∈ fs ∨ p = q := by
  unfold fsInsert
  split
  · next h =>
    constructor
    · exact Or.inl
    · rintro (hp | rfl)
      · exact hp
      · exact h
  · simp [List.mem_append]

theorem fsInsert_self (fs : FS) (p : String) : p ∈ fsInsert fs p :=
  (mem_fsInsert_iff fs p p).mpr (Or.inr rfl)

theorem fsInsert_mem (fs : FS) (p q : String) (h : p ∈ fs) : p ∈ fsInsert fs q :=
  (mem_fsInsert_iff fs p q).mpr (Or.inl h)

theorem mem_fsRemove_iff (fs : FS) (p q : String) : p ∈ fsRemove fs q ↔ p ∈ fs ∧ p ≠ q := by
  simp [fsRemove, List.mem_filter]

theorem not_mem_fsRemove_self (fs : FS) (p : String) : p ∉ fsRemove fs p := by
  simp [mem_fsRemove_iff]

theorem aexists_iff (fs : FS) (p : String) : aexists fs p = true ↔ p ∈ fs := by
  simp [aexists]

theorem aexists_false_iff (fs : FS) (p : String) : aexists fs p = false ↔ p ∉ fs := by
  simp [aexists]

/-! ### Per-sub-step lemmas for the Item Processor -/

theorem tags_step_spec (env : Env) (s : RunState) :
    (tags_step env s).fs = s.fs ∧
    (tags_step env s).item.bvid = s.item.bvid ∧
    (tags_step env s).item.favorite_list_id = s.item.favorite_list_id ∧
    (tags_step env s).item.type = s.item.type ∧
    (tags_step env s).item.status = s.item.status ∧
    (tags_step env s).item.downloaded = s.item.downloaded ∧
    (tags_step env s).item.cover = s.item.cover := by
  unfold tags_step
  rcases h1 : s.item.tags with _ | l
  · rcases h2 : env.tagsResult with _ | l2 <;> simp [h1, h2]
  · simp [h1]

theorem tags_step_tags (env : Env) (s : RunState) (h : env.tagsResult.isSome = true) :
    (tags_step env s).item.tags.isSome = true := by
  unfold tags_step
  rcases h1 : s.item.tags with _ | l
  · rcases h2 : env.tagsResult with _ | l2
    · rw [h2] at h
      simp at h
    · simp [h1, h2]
  · simp [h1]

theorem tags_step_skip (env : Env) (s : RunState) (l : List String) (h : s.item.tags = some l) :
    tags_step env s = s := by
  unfold tags_step
  simp [h]

theorem upper_step_item (env : Env) (u : Upper) (s : RunState) :
    (upper_step env u s).item = s.item := by
  unfold upper_step
  split <;> rfl

theorem upper_step_mono (env : Env) (u : Upper) (s : RunState) (p : String) (h : p ∈ s.fs) :
    p ∈ (upper_step env u s).fs := by
  unfold upper_step
  split
  · simpa using h
  · by_cases ht : env.thumbOk <;> simp [ht, save_metadata, mem_fsInsert_iff, h]

theorem upper_step_estab (env : Env) (u : Upper) (s : RunState) (h : env.thumbOk = true) :
    thumb_path u.mid ∈ (upper_step env u s).fs ∧ meta_path u.mid ∈ (upper_step env u s).fs := by
  unfold upper_step
  split
  · next hc =>
    rw [Bool.and_eq_true, aexists_iff, aexists_iff] at hc
    simpa using hc
  · simp [h, save_metadata, mem_fsInsert_iff]

theorem upper_step_fs_sub (env : Env) (u : Upper) (s : RunState) (p : String)
    (hp : p ∈ (upper_step env u s).fs) :
    p ∈ s.fs ∨ p = meta_path u.mid ∨ p = thumb_path u.mid := by
  unfold upper_step at hp
  split at hp
  · exact Or.inl (by simpa using hp)
  · by_cases ht : env.thumbOk <;> simp [ht, save_metadata, mem_fsInsert_iff] at hp <;> tauto

theorem upper_step_skip (env : Env) (u : Upper) (s : RunState)
    (h1 : thumb_path u.mid ∈ s.fs) (h2 : meta_path u.mid ∈ s.fs) :
    upper_step env u s = { s with effs := s.effs ++ [.logInfo "upper_exists"] } := by
  unfold upper_step
  rw [if_pos]
  rw [Bool.and_eq_true, aexists_iff, aexists_iff]
  exact ⟨h1, h2⟩

theorem nfo_step_item (pm : Nat → String) (s : RunState) : (nfo_step pm s).item = s.item := by
  unfold nfo_step
  split <;> rfl

theorem nfo_step_mono (pm : Nat → String) (s : RunState) (p : String) (h : p ∈ s.fs) :
    p ∈ (nfo_step pm s).fs := by
  unfold nfo_step
  split
  · simpa using h
  · simp [mem_fsInsert_iff, h]

theorem nfo_step_estab (pm : Nat → String) (s : RunState) :
    nfo_path pm s.item ∈ (nfo_step pm s).fs := by
  unfold nfo_step
  split
  · next hc => simpa using (aexists_iff _ _).mp hc
  · simp [mem_fsInsert_iff]

theorem nfo_step_fs_sub (pm : Nat → String) (s : RunState) (p : String)
    (hp : p ∈ (nfo_step pm s).fs) :
    p ∈ s.fs ∨ p = nfo_path pm s.item := by
  unfold nfo_step at hp
  split at hp
  · exact Or.inl (by simpa using hp)
  · simpa [mem_fsInsert_iff] using hp

theorem nfo_step_skip (pm : Nat → String) (s : RunState) (h : nfo_path pm s.item ∈ s.fs) :
    nfo_step pm s = { s with effs := s.effs ++ [.logInfo "nfo_exists"] } := by
  unfold nfo_step
  rw [if_pos ((aexists_iff _ _).mpr h)]

theorem poster_step_item (pm : Nat → String) (env : Env) (s : RunState) :
    (poster_step pm env s).item = s.item := by
  unfold poster_step
  split
  · rfl
  · split <;> rfl

theorem poster_step_mono (pm : Nat → String) (env : Env) (s : RunState) (p : String)
    (h : p ∈ s.fs) : p ∈ (poster_step pm env s).fs := by
  unfold poster_step
  split
  · simpa using h
  · split
    · simp [mem_fsInsert_iff, h]
    · simpa using h

theorem poster_step_estab (pm : Nat → String) (env : Env) (s : RunState)
    (h : env.posterOk = true) :
    poster_path pm s.item ∈ (poster_step pm env s).fs := by
  unfold poster_step
  split
  · next hc => simpa using (aexists_iff _ _).mp hc
  · simp [mem_fsInsert_iff]

theorem poster_step_fs_sub (pm : Nat → String) (env : Env) (s : RunState) (p : String)
    (hp : p ∈ (poster_step pm env s).fs) :
    p ∈ s.fs ∨ p = poster_path pm s.item := by
  unfold poster_step at hp
  split at hp
  · exact Or.inl (by simpa using hp)
  · split at hp
    · simpa [mem_fsInsert_iff] using hp
    · exact Or.inl (by simpa using hp)

theorem poster_step_skip (pm : Nat → String) (env : Env) (s : RunState)
    (h : poster_path pm s.item ∈ s.fs) :
    poster_step pm env s = { s with effs := s.effs ++ [.logInfo "poster_exists"] } := by
  unfold poster_step
  rw [if_pos ((aexists_iff _ _).mpr h)]

theorem subtitle_step_item (pm : Nat → String) (env : Env) (s : RunState) :
    (subtitle_step pm env s).item = s.item := by
  unfold subtitle_step
  split
  · rfl
  · split <;> rfl

theorem subtitle_step_mono (pm : Nat → String) (env : Env) (s : RunState) (p : String)
    (h : p ∈ s.fs) : p ∈ (subtitle_step pm env s).fs := by
  unfold subtitle_step
  split
  · simpa using h
  · split
    · simp [mem_fsInsert_iff, h]
    · simpa using h

theorem subtitle_step_estab (pm : Nat → String) (env : Env) (s : RunState)
    (h : env.subtitleOk = true) :
    subtitle_path pm s.item ∈ (subtitle_step pm env s).fs := by
  unfold subtitle_step
  split
  · next hc => simpa using (aexists_iff _ _).mp hc
  · simp [mem_fsInsert_iff]

theorem subtitle_step_fs_sub (pm : Nat → String) (env : Env) (s : RunState) (p : String)
    (hp : p ∈ (subtitle_step pm env s).fs) :
    p ∈ s.fs ∨ p = subtitle_path pm s.item := by
  unfold subtitle_step at hp
  split at hp
  · exact Or.inl (by simpa using hp)
  · split at hp
    · simpa [mem_fsInsert_iff] using hp
    · exact Or.inl (by simpa using hp)

theorem subtitle_step_skip (pm : Nat → String) (env : Env) (s : RunState)
    (h : subtitle_path pm s.item ∈ s.fs) :
    subtitle_step pm env s = { s with effs := s.effs ++ [.logInfo "subtitle_exists"] } := by
  unfold subtitle_step
  rw [if_pos ((aexists_iff _ _).mpr h)]

theorem video_step_skip (pm : Nat → String) (env : Env) (s : RunState)
    (h : video_path pm s.item ∈ s.fs) :
    video_step pm env s = { s with item := { s.item with downloaded := true },
                                   effs := s.effs ++ [.logInfo "video_exists"] } := by
  have h' : aexists s.fs (video_path pm s.item) = true := (aexists_iff _ _).mpr h
  simp only [video_step, h', if_true]

/-! ### Path congruence and composition of the metadata sub-steps -/

theorem video_path_congr (pm : Nat → String) {a b : FavoriteItem}
    (h1 : a.bvid = b.bvid) (h2 : a.favorite_list_id = b.favorite_list_id) :
    video_path pm a = video_path pm b := by
  simp [video_path, h1, h2]

theorem tmp_video_path_congr (pm : Nat → String) {a b : FavoriteItem}
    (h1 : a.bvid = b.bvid) (h2 : a.favorite_list_id = b.favorite_list_id) :
    tmp_video_path pm a = tmp_video_path pm b := by
  simp [tmp_video_path, h1, h2]

theorem tmp_audio_path_congr (pm : Nat → String) {a b : FavoriteItem}
    (h1 : a.bvid = b.bvid) (h2 : a.favorite_list_id = b.favorite_list_id) :
    tmp_audio_path pm a = tmp_audio_path pm b := by
  simp [tmp_audio_path, h1, h2]

theorem nfo_path_congr (pm : Nat → String) {a b : FavoriteItem}
    (h1 : a.bvid = b.bvid) (h2 : a.favorite_list_id = b.favorite_list_id) :
    nfo_path pm a = nfo_path pm b := by
  simp [nfo_path, h1, h2]

theorem poster_path_congr (pm : Nat → String) {a b : FavoriteItem}
    (h1 : a.bvid = b.bvid) (h2 : a.favorite_list_id = b.favorite_list_id) :
    poster_path pm a = poster_path pm b := by
  simp [poster_path, h1, h2]

theorem subtitle_path_congr (pm : Nat → String) {a b : FavoriteItem}
    (h1 : a.bvid = b.bvid) (h2 : a.favorite_list_id = b.favorite_list_id) :
    subtitle_path pm a = subtitle_path pm b := by
  simp [subtitle_path, h1, h2]

theorem metadata_steps_item_core (pm : Nat → String) (env : Env) (u : Upper) (s : RunState) :
    (metadata_steps pm env u s).item.bvid = s.item.bvid ∧
    (metadata_steps pm env u s).item.favorite_list_id = s.item.favorite_list_id ∧
    (metadata_steps pm env u s).item.type = s.item.type ∧
    (metadata_steps pm env u s).item.status = s.item.status ∧
    (metadata_steps pm env u s).item.downloaded = s.item.downloaded ∧
    (metadata_steps pm env u s).item.cover = s.item.cover := by
  unfold metadata_steps
  rw [subtitle_step_item, poster_step_item, nfo_step_item, upper_step_item]
  obtain ⟨_, h2, h3, h4, h5, h6, h7⟩ := tags_step_spec env s
  exact ⟨h2, h3, h4, h5, h6, h7⟩

theorem metadata_steps_mono (pm : Nat → String) (env : Env) (u : Upper) (s : RunState)
    (p : String) (h : p ∈ s.fs) : p ∈ (metadata_steps pm env u s).fs := by
  unfold metadata_steps
  apply subtitle_step_mono
  apply poster_step_mono
  apply nfo_step_mono
  apply upper_step_mono
  rw [(tags_step_spec env s).1]
  exact h

theorem metadata_steps_fs_sub (pm : Nat → String) (env : Env) (u : Upper) (s : RunState)
    (p : String) (hp : p ∈ (metadata_steps pm env u s).fs) :
    p ∈ s.fs ∨ p ∈ artifact_paths pm s.item u.mid := by
  unfold metadata_steps at hp
  set s1 := tags_step env s with hs1
  have hb1 : s1.item.bvid = s.item.bvid := (tags_step_spec env s).2.1
  have hf1 : s1.item.favorite_list_id = s.item.favorite_list_id := (tags_step_spec env s).2.2.1
  set s2 := upper_step env u s1 with hs2
  have hi2 : s2.item = s1.item := upper_step_item env u s1
  set s3 := nfo_step pm s2 with hs3
  have hi3 : s3.item = s2.item := nfo_step_item pm s2
  set s4 := poster_step pm env s3 with hs4
  have hi4 : s4.item = s3.item := poster_step_item pm env s3
  rcases subtitle_step_fs_sub pm env s4 p hp with h | h
  · rcases poster_step_fs_sub pm env s3 p h with h | h
    · rcases nfo_step_fs_sub pm s2 p h with h | h
      · rcases upper_step_fs_sub env u s1 p h with h | h | h
        · left
          rw [(tags_step_spec env s).1] at h
          exact h
        · right
          simp [artifact_paths, h]
        · right
          simp [artifact_paths, h]
      · right
        rw [h, hi2, nfo_path_congr pm hb1 hf1]
        simp [artifact_paths]
    · right
      rw [h, hi3, hi2, poster_path_congr pm hb1 hf1]
      simp [artifact_paths]
  · right
    rw [h, hi4, hi3, hi2, subtitle_path_congr pm hb1 hf1]
    simp [artifact_paths]

theorem metadata_steps_estab (pm : Nat → String) (env : Env) (u : Upper) (s : RunState)
    (htags : env.tagsResult.isSome = true) (hthumb : env.thumbOk = true)
    (hposter : env.posterOk = true) (hsub : env.subtitleOk = true) :
    (metadata_steps pm env u s).item.tags.isSome = true ∧
    thumb_path u.mid ∈ (metadata_steps pm env u s).fs ∧
    meta_path u.mid ∈ (metadata_steps pm env u s).fs ∧
    nfo_path pm s.item ∈ (metadata_steps pm env u s).fs ∧
    poster_path pm s.item ∈ (metadata_steps pm env u s).fs ∧
    subtitle_path pm s.item ∈ (metadata_steps pm env u s).fs := by
  unfold metadata_steps
  set s1 := tags_step env s with hs1
  have hb1 : s1.item.bvid = s.item.bvid := (tags_step_spec env s).2.1
  have hf1 : s1.item.favorite_list_id = s.item.favorite_list_id := (tags_step_spec env s).2.2.1
  set s2 := upper_step env u s1 with hs2
  have hi2 : s2.item = s1.item := upper_step_item env u s1
  set s3 := nfo_step pm s2 with hs3
  have hi3 : s3.item = s2.item := nfo_step_item pm s2
  set s4 := poster_step pm env s3 with hs4
  have hi4 : s4.item = s3.item := poster_step_item pm env s3
  refine ⟨?_, ?_, ?_, ?_, ?_, ?_⟩
  · rw [subtitle_step_item, poster_step_item, nfo_step_item, upper_step_item]
    exact tags_step_tags env s htags
  · exact subtitle_step_mono pm env s4 _ (poster_step_mono pm env s3 _
      (nfo_step_mono pm s2 _ (upper_step_estab env u s1 hthumb).1))
  · exact subtitle_step_mono pm env s4 _ (poster_step_mono pm env s3 _
      (nfo_step_mono pm s2 _ (upper_step_estab env u s1 hthumb).2))
  · apply subtitle_step_mono pm env s4 _ (poster_step_mono pm env s3 _ ?_)
    have := nfo_step_estab pm s2
    rwa [hi2, nfo_path_congr pm hb1 hf1] at this
  · apply subtitle_step_mono pm env s4 _ ?_
    have := poster_step_estab pm env s3 hposter
    rwa [hi3, hi2, poster_path_congr pm hb1 hf1] at this
  · have := subtitle_step_estab pm env s4 hsub
    rwa [hi4, hi3, hi2, subtitle_path_congr pm hb1 hf1] at this

/-! ### Claim theorems: orchestrator, cycle gate, non-video entries -/

/-- C10: for an entry whose media kind is not video, `process_favorite_item`
returns right after the warning: the entry and the filesystem are
unchanged, and the effect trace holds only the start log and the warning —
no network call, no file write, no unlink, no subprocess, and no save
(unlike video entries, which are always saved once at the end). -/
theorem non_video_entry_skipped (pm : Nat → String) (env : Env) (upper : Upper)
    (pp pv pn pu ps : Bool) (fav_item : FavoriteItem) (fs : FS)
    (h : fav_item.type ≠ .video) :
    process_favorite_item pm env upper pp pv pn pu ps fav_item fs =
      ⟨fav_item, fs, [.logInfo "start", .logWarning "not_video"]⟩ ∧
    (process_favorite_item pm env upper pp pv pn pu ps fav_item fs).effs.filter isNetworkEff
      = [] ∧
    (process_favorite_item pm env upper pp pv pn pu ps fav_item fs).effs.filter isMuxEff
      = [] ∧
    Effect.save ∉ (process_favorite_item pm env upper pp pv pn pu ps fav_item fs).effs ∧
    (∀ p2, Effect.fileWrite p2 ∉
      (process_favorite_item pm env upper pp pv pn pu ps fav_item fs).effs) := by
  have heq : process_favorite_item pm env upper pp pv pn pu ps fav_item fs =
      ⟨fav_item, fs, [.logInfo "start", .logWarning "not_video"]⟩ := by
    simp [process_favorite_item, h]
  refine ⟨heq, ?_, ?_, ?_, ?_⟩ <;> rw [heq] <;> simp [isNetworkEff, isMuxEff]

/-- C10 witness: a concrete audio entry is skipped untouched. -/
theorem non_video_entry_skipped_witness :
    process_favorite_item exPm exEnvOk exUpper true true true true true
      { exItem with type := .audio } [] =
      ⟨{ exItem with type := .audio }, [], [.logInfo "start", .logWarning "not_video"]⟩ :=
  (non_video_entry_skipped exPm exEnvOk exUpper true true true true true
    { exItem with type := .audio } [] (by decide)).1

/-- C7: the credential check of `process()` runs exactly when today is
strictly after the stored anchor; when it runs, the anchor is advanced to
today; if the check asks for a refresh and the refresh fails, the cycle
returns with no collection synchronized; when the check does not run, the
anchor is unchanged and all collections are synchronized. -/
theorem credential_refresh_gate (env : CycleEnv) (anchor0 : Nat) (ids : List Nat) :
    (anchor0 < env.today → env.needsRefresh = true → env.refreshOk = false →
      (process env anchor0 ids).synced = [] ∧
      (process env anchor0 ids).refreshAttempted = true) ∧
    ((process env anchor0 ids).checked = true ↔ anchor0 < env.today) ∧
    (anchor0 < env.today → (process env anchor0 ids).anchor = env.today) ∧
    (¬anchor0 < env.today →
      (process env anchor0 ids).anchor = anchor0 ∧ (process env anchor0 ids).synced = ids) := by
  by_cases h : anchor0 < env.today
  · by_cases hn : env.needsRefresh = true <;> by_cases hr : env.refreshOk = true <;>
      simp [process, h, hn, hr]
  · simp [process, h]

/-- C7 witness: with anchor 3, today 5, a needed refresh that fails, no
collection is synchronized. -/
theorem credential_refresh_gate_witness :
    (process ⟨5, true, false⟩ 3 [1, 2]).synced = [] ∧
    (process ⟨5, true, false⟩ 3 [1, 2]).refreshAttempted = true :=
  (credential_refresh_gate ⟨5, true, false⟩ 3 [1, 2]).1 (by decide) rfl rfl

/-- C6: `asyncio.gather(..., return_exceptions=True)` over the batch:
even when entry `i`'s processing fails with an exception, the batch result
has one outcome per entry (the call returns only once all entries
finished), and each entry's outcome is that entry's own, unaffected by the
failure; the return type being a plain list of captured outcomes embeds
that no per-entry exception is re-raised to the caller. -/
theorem runAll_failure_isolation {α ε : Type} (f : α → Except ε Unit) (entries : List α)
    (i : Nat) (e : ε) (hfail : (entries[i]?).map f = some (.error e)) :
    (runAll f entries).length = entries.length ∧
    ∀ j : Nat, (runAll f entries)[j]? = (entries[j]?).map f := by
  refine ⟨by simp [runAll], ?_⟩
  intro j
  simp [runAll]

/-- C6 witness: one failing entry among three. -/
theorem runAll_failure_isolation_witness :
    (runAll (fun n : Nat => if n = 1 then Except.error 0 else Except.ok ()) [0, 1, 2]).length
      = 3 ∧
    ∀ j : Nat,
      (runAll (fun n : Nat => if n = 1 then Except.error 0 else Except.ok ()) [0, 1, 2])[j]? =
        (([0, 1, 2] : List Nat)[j]?).map
          (fun n : Nat => if n = 1 then Except.error 0 else Except.ok ()) :=
  runAll_failure_isolation (fun n : Nat => if n = 1 then Except.error 0 else Except.ok ())
    [0, 1, 2] 1 0 rfl

theorem inFlight_append (a b : List OrchTask) : inFlight (a ++ b) = inFlight a + inFlight b := by
  simp [inFlight, List.filter_append]

theorem inFlight_cons (t : OrchTask) (l : List OrchTask) :
    inFlight (t :: l) = (if t.phase = .running then 1 else 0) + inFlight l := by
  simp only [inFlight, List.filter_cons]
  by_cases h : t.phase = .running <;> simp [h] <;> omega

theorem inFlight_step (cap : Nat) (s1 s2 : List OrchTask) (hstep : OrchStep cap s1 s2)
    (h : inFlight s1 ≤ cap) : inFlight s2 ≤ cap := by
  cases hstep with
  | acquire pre post t hp hcap =>
    rw [inFlight_append, inFlight_cons] at hcap
    rw [inFlight_append, inFlight_cons]
    simp [hp] at hcap
    simp
    omega
  | release pre post t hp =>
    rw [inFlight_append, inFlight_cons] at h
    rw [inFlight_append, inFlight_cons]
    simp [hp] at h
    simp
    omega

/-- C5: starting from any batch of pending Item Processor invocations —
drawn from any mix of collections, since the `Semaphore(4)` of
`concurrent_decorator` is created once per process — every state the event
loop can reach has at most 4 invocations past the semaphore at once. -/
theorem orchestrator_concurrency_bound (s0 s : List OrchTask)
    (h0 : ∀ t ∈ s0, t.phase = .pending)
    (hr : OrchReachable 4 s0 s) : inFlight s ≤ 4 := by
  have h00 : inFlight s0 = 0 := by
    simp only [inFlight, List.length_eq_zero]
    rw [List.filter_eq_nil]
    intro t ht
    simp [h0 t ht]
  induction hr with
  | refl => omega
  | tail _ hstep ih => exact inFlight_step 4 _ _ hstep ih

/-- C5 witness: twenty pending invocations across two collections satisfy
the bound. -/
theorem orchestrator_concurrency_bound_witness : inFlight exTasks ≤ 4 :=
  orchestrator_concurrency_bound exTasks exTasks (by decide) Relation.ReflTransGen.refl

/-! ### Video sub-step lemmas and the mux-path claims -/

theorem video_step_codeErr_spec (pm : Nat → String) (env : Env) (s : RunState) (c : Int)
    (hne : video_path pm s.item ∉ s.fs) (hres : env.resolve = .codeErr c)
    (hstatus : s.item.status = .normal) :
    (video_step pm env s).item.status =
      (if c = 62002 then .invisible else if c = -404 then .deleted else .normal) ∧
    (video_step pm env s).item.downloaded = s.item.downloaded ∧
    (video_step pm env s).fs = s.fs ∧
    (video_step pm env s).effs = s.effs ++ [.netCall "get_download_url"] ++
      (if c = 62002 then [] else if c = -404 then [] else [.logException "video_error_code"]) ++
      (if c = 62002 ∨ c = -404 then [.logError "video_unavailable"] else []) := by
  have h' : aexists s.fs (video_path pm s.item) = false := (aexists_false_iff _ _).mpr hne
  rcases eq_or_ne c 62002 with h1 | h1
  · subst h1
    simp [video_step, h', hres]
  · rcases eq_or_ne c (-404) with h2 | h2
    · subst h2
      simp [video_step, h', hres, h1]
    · simp [video_step, h', hres, h1, h2, hstatus]

theorem video_step_exn_spec (pm : Nat → String) (env : Env) (s : RunState)
    (hne : video_path pm s.item ∉ s.fs) (hres : env.resolve = .exn) :
    video_step pm env s =
      { s with effs := s.effs ++ [.netCall "get_download_url", .logException "video"] } := by
  have h' : aexists s.fs (video_path pm s.item) = false := (aexists_false_iff _ _).mpr hne
  simp [video_step, h', hres]

/-- C9: when the final file is absent and stream resolution yields a single
combined FLV stream, exactly one temp file is fetched, the mux tool runs
with one `-i` input and no stream-copy flag, and the temp file is then
unlinked; with separate video and audio streams, both temp files are
fetched (gathered concurrently in the source; recorded here in program
order), the mux tool runs with two `-i` inputs and `-c copy`, and both temp
files are then unlinked.  The trace equalities list all effects of the
video sub-step, so no other fetch or subprocess happens in it. -/
theorem mux_path_selection (pm : Nat → String) (env : Env) (s : RunState)
    (hne : video_path pm s.item ∉ s.fs) :
    (∀ url, env.resolve = .ok (.flv url) → env.dlVideoOk = true →
      (video_step pm env s).effs = s.effs ++
        [.netCall "get_download_url", .netFetch url (tmp_video_path pm s.item),
         .subprocessExec FFMPEG_COMMAND ["-i", tmp_video_path pm s.item, video_path pm s.item],
         .unlink (tmp_video_path pm s.item)] ∧
      (video_step pm env s).item.downloaded = true ∧
      tmp_video_path pm s.item ∉ (video_step pm env s).fs) ∧
    (∀ vurl aurl, env.resolve = .ok (.dash vurl aurl) → env.dlVideoOk = true →
      env.dlAudioOk = true →
      (video_step pm env s).effs = s.effs ++
        [.netCall "get_download_url", .netFetch vurl (tmp_video_path pm s.item),
         .netFetch aurl (tmp_audio_path pm s.item),
         .subprocessExec FFMPEG_COMMAND ["-i", tmp_video_path pm s.item, "-i",
           tmp_audio_path pm s.item, "-c", "copy", video_path pm s.item],
         .unlink (tmp_video_path pm s.item), .unlink (tmp_audio_path pm s.item)] ∧
      (video_step pm env s).item.downloaded = true ∧
      tmp_video_path pm s.item ∉ (video_step pm env s).fs ∧
      tmp_audio_path pm s.item ∉ (video_step pm env s).fs) := by
  have h' : aexists s.fs (video_path pm s.item) = false := (aexists_false_iff _ _).mpr hne
  constructor
  · intro url hres hdl
    refine ⟨?_, ?_, ?_⟩ <;>
      simp [video_step, h', hres, hdl, flv_mux_args, not_mem_fsRemove_self]
  · intro vurl aurl hres hv ha
    refine ⟨?_, ?_, ?_, ?_⟩ <;>
      simp [video_step, h', hres, hv, ha, dash_mux_args, not_mem_fsRemove_self,
        mem_fsRemove_iff]

/-- C9 witness: concrete FLV-shaped resolution fetches one temp file,
transcodes with a single input, and unlinks. -/
theorem mux_path_selection_witness :
    (video_step exPm exEnvFlv ⟨exItem, [], []⟩).effs = [] ++
      [.netCall "get_download_url", .netFetch "u" (tmp_video_path exPm exItem),
       .subprocessExec FFMPEG_COMMAND ["-i", tmp_video_path exPm exItem, video_path exPm exItem],
       .unlink (tmp_video_path exPm exItem)] ∧
    (video_step exPm exEnvFlv ⟨exItem, [], []⟩).item.downloaded = true ∧
    tmp_video_path exPm exItem ∉ (video_step exPm exEnvFlv ⟨exItem, [], []⟩).fs :=
  (mux_path_selection exPm exEnvFlv ⟨exItem, [], []⟩ (by simp)).1 "u" rfl rfl

/-- Running `process_favorite_item` with every flag enabled on a video entry is
the metadata sub-steps, then the video sub-step, then one save. -/
theorem process_item_video_unfold (pm : Nat → String) (env : Env) (upper : Upper)
    (it : FavoriteItem) (fs : FS) (h : it.type = .video) :
    process_favorite_item pm env upper true true true true true it fs =
      { video_step pm env (metadata_steps pm env upper ⟨it, fs, [.logInfo "start"]⟩) with
        effs := (video_step pm env
            (metadata_steps pm env upper ⟨it, fs, [.logInfo "start"]⟩)).effs ++
          [.save, .logInfo "processed"] } := by
  simp [process_favorite_item, metadata_steps, h]

/-- C3: when the per-entry stream resolution fails with a
`ResponseCodeException`, code 62002 turns the entry Invisible and code -404
turns it Deleted (both logged as unavailable); any other code leaves the
status Normal with the failure logged, and any non-code exception does the
same; `downloaded` stays false on all of these paths, and the entry is
saved at the end of each of them. -/
theorem video_error_status_mapping (pm : Nat → String) (upper : Upper)
    (fav_item : FavoriteItem) (fs0 : FS)
    (htype : fav_item.type = .video)
    (hstatus : fav_item.status = .normal)
    (hdl : fav_item.downloaded = false)
    (hvid : video_path pm fav_item ∉ fs0)
    (hfresh : video_path pm fav_item ∉ artifact_paths pm fav_item upper.mid) :
    (∀ (env : Env) (c : Int), env.resolve = .codeErr c →
      let r := process_favorite_item pm env upper true true true true true fav_item fs0
      r.item.status =
        (if c = 62002 then .invisible else if c = -404 then .deleted else .normal) ∧
      r.item.downloaded = false ∧
      Effect.save ∈ r.effs ∧
      (c ≠ 62002 → c ≠ -404 → Effect.logException "video_error_code" ∈ r.effs) ∧
      (c = 62002 ∨ c = -404 → Effect.logError "video_unavailable" ∈ r.effs)) ∧
    (∀ env : Env, env.resolve = .exn →
      let r := process_favorite_item pm env upper true true true true true fav_item fs0
      r.item.status = .normal ∧ r.item.downloaded = false ∧
      Effect.save ∈ r.effs ∧ Effect.logException "video" ∈ r.effs) := by
  have hcommon : ∀ env : Env,
      (metadata_steps pm env upper ⟨fav_item, fs0, [.logInfo "start"]⟩).item.status = .normal ∧
      (metadata_steps pm env upper ⟨fav_item, fs0, [.logInfo "start"]⟩).item.downloaded = false ∧
      video_path pm
          (metadata_steps pm env upper ⟨fav_item, fs0, [.logInfo "start"]⟩).item ∉
        (metadata_steps pm env upper ⟨fav_item, fs0, [.logInfo "start"]⟩).fs := by
    intro env
    obtain ⟨hb, hf, _, hst, hdl5, _⟩ :=
      metadata_steps_item_core pm env upper ⟨fav_item, fs0, [.logInfo "start"]⟩
    refine ⟨by rw [hst]; exact hstatus, by rw [hdl5]; exact hdl, ?_⟩
    rw [video_path_congr pm hb hf]
    intro hmem
    rcases metadata_steps_fs_sub pm env upper ⟨fav_item, fs0, [.logInfo "start"]⟩ _ hmem with
      hc | hc
    · exact hvid hc
    · exact hfresh hc
  constructor
  · intro env c hres
    obtain ⟨hst5, hdl5, hne5⟩ := hcommon env
    obtain ⟨h1, h2, _, h4⟩ :=
      video_step_codeErr_spec pm env (metadata_steps pm env upper ⟨fav_item, fs0,
        [.logInfo "start"]⟩) c hne5 hres hst5
    rw [process_item_video_unfold pm env upper fav_item fs0 htype]
    refine ⟨by rw [h1], by rw [h2]; exact hdl5, by simp, ?_, ?_⟩
    · intro hc1 hc2
      simp [h4, hc1, hc2]
    · intro hc
      rcases hc with hc | hc <;> simp [h4, hc]
  · intro env hres
    obtain ⟨hst5, hdl5, hne5⟩ := hcommon env
    have hstep := video_step_exn_spec pm env
      (metadata_steps pm env upper ⟨fav_item, fs0, [.logInfo "start"]⟩) hne5 hres
    rw [process_item_video_unfold pm env upper fav_item fs0 htype, hstep]
    refine ⟨hst5, hdl5, by simp, by simp⟩

/-- C3 witness: the "deleted" code -404 marks a concrete entry Deleted,
keeps `downloaded` false, and the entry is saved. -/
theorem video_error_status_mapping_witness :
    (process_favorite_item exPm exEnvDeleted exUpper true true true true true exItem
      []).item.status = MediaStatus.deleted ∧
    (process_favorite_item exPm exEnvDeleted exUpper true true true true true exItem
      []).item.downloaded = false ∧
    Effect.save ∈ (process_favorite_item exPm exEnvDeleted exUpper true true true true true
      exItem []).effs := by
  have h := (video_error_status_mapping exPm exUpper exItem [] rfl rfl rfl (by simp)
      (by decide)).1 exEnvDeleted (-404) rfl
  exact ⟨by simpa using h.1, h.2.1, h.2.2.1⟩

/-! ### Idempotency of the Item Processor -/

theorem process_item_all_skip (pm : Nat → String) (env : Env) (upper : Upper)
    (it : FavoriteItem) (fs : FS)
    (htype : it.type = .video)
    (htags : it.tags.isSome = true)
    (h1 : thumb_path upper.mid ∈ fs) (h2 : meta_path upper.mid ∈ fs)
    (h3 : nfo_path pm it ∈ fs) (h4 : poster_path pm it ∈ fs)
    (h5 : subtitle_path pm it ∈ fs) (h6 : video_path pm it ∈ fs) :
    process_favorite_item pm env upper true true true true true it fs =
      ⟨{ it with downloaded := true }, fs,
       [.logInfo "start", .logInfo "upper_exists", .logInfo "nfo_exists",
        .logInfo "poster_exists", .logInfo "subtitle_exists", .logInfo "video_exists",
        .save, .logInfo "processed"]⟩ := by
  obtain ⟨l, hl⟩ := Option.isSome_iff_exists.mp htags
  rw [process_item_video_unfold pm env upper it fs htype]
  unfold metadata_steps
  rw [tags_step_skip env ⟨it, fs, [.logInfo "start"]⟩ l hl]
  rw [upper_step_skip env upper ⟨it, fs, [.logInfo "start"]⟩ h1 h2]
  rw [nfo_step_skip pm _ h3]
  rw [poster_step_skip pm env _ h4]
  rw [subtitle_step_skip pm env _ h5]
  rw [video_step_skip pm env _ h6]
  rfl

/-- C2: running the Item Processor twice on a video entry whose final media
file already exists — with the first run's remote calls succeeding so its
artifacts land on disk — makes the second run perform zero network effects
(no API call, no content download) and zero mux-tool subprocess
invocations, and the second run still sets `downloaded` to true.  The
second run's environment is arbitrary: nothing remote is consulted. -/
theorem item_processor_idempotent (pm : Nat → String) (env1 env2 : Env) (upper : Upper)
    (fav_item : FavoriteItem) (fs0 : FS)
    (htype : fav_item.type = .video)
    (hvid : video_path pm fav_item ∈ fs0)
    (htags : env1.tagsResult.isSome = true)
    (hthumb : env1.thumbOk = true)
    (hposter : env1.posterOk = true)
    (hsub : env1.subtitleOk = true) :
    let r1 := process_favorite_item pm env1 upper true true true true true fav_item fs0
    let r2 := process_favorite_item pm env2 upper true true true true true r1.item r1.fs
    r2.effs.filter isNetworkEff = [] ∧ r2.effs.filter isMuxEff = [] ∧
    r2.item.downloaded = true := by
  intro r1 r2
  obtain ⟨hb, hf, ht, _, _, _⟩ :=
    metadata_steps_item_core pm env1 upper ⟨fav_item, fs0, [.logInfo "start"]⟩
  obtain ⟨htg, hth, hme, hnf, hpo, hsu⟩ :=
    metadata_steps_estab pm env1 upper ⟨fav_item, fs0, [.logInfo "start"]⟩ htags hthumb
      hposter hsub
  have hvid5 : video_path pm fav_item ∈
      (metadata_steps pm env1 upper ⟨fav_item, fs0, [.logInfo "start"]⟩).fs :=
    metadata_steps_mono pm env1 upper ⟨fav_item, fs0, [.logInfo "start"]⟩ _ hvid
  have hskip : video_step pm env1
      (metadata_steps pm env1 upper ⟨fav_item, fs0, [.logInfo "start"]⟩) =
      { metadata_steps pm env1 upper ⟨fav_item, fs0, [.logInfo "start"]⟩ with
        item := { (metadata_steps pm env1 upper ⟨fav_item, fs0, [.logInfo "start"]⟩).item with
          downloaded := true },
        effs := (metadata_steps pm env1 upper ⟨fav_item, fs0, [.logInfo "start"]⟩).effs ++
          [.logInfo "video_exists"] } := by
    apply video_step_skip
    rw [video_path_congr pm hb hf]
    exact hvid5
  have hr1 : r1 =
      { metadata_steps pm env1 upper ⟨fav_item, fs0, [.logInfo "start"]⟩ with
        item := { (metadata_steps pm env1 upper ⟨fav_item, fs0, [.logInfo "start"]⟩).item with
          downloaded := true },
        effs := ((metadata_steps pm env1 upper ⟨fav_item, fs0, [.logInfo "start"]⟩).effs ++
          [.logInfo "video_exists"]) ++ [.save, .logInfo "processed"] } := by
    show process_favorite_item pm env1 upper true true true true true fav_item fs0 = _
    rw [process_item_video_unfold pm env1 upper fav_item fs0 htype, hskip]
  have hr1item : r1.item =
      { (metadata_steps pm env1 upper ⟨fav_item, fs0, [.logInfo "start"]⟩).item with
        downloaded := true } := by rw [hr1]
  have hr1fs : r1.fs =
      (metadata_steps pm env1 upper ⟨fav_item, fs0, [.logInfo "start"]⟩).fs := by rw [hr1]
  have hb2 : r1.item.bvid = fav_item.bvid := by rw [hr1item]; exact hb
  have hf2 : r1.item.favorite_list_id = fav_item.favorite_list_id := by rw [hr1item]; exact hf
  have ht2 : r1.item.type = .video := by
    rw [hr1item]
    show (metadata_steps pm env1 upper ⟨fav_item, fs0, [.logInfo "start"]⟩).item.type = .video
    rw [ht]
    exact htype
  have htg2 : r1.item.tags.isSome = true := by rw [hr1item]; exact htg
  have hall := process_item_all_skip pm env2 upper r1.item r1.fs ht2 htg2
    (by rw [hr1fs]; exact hth)
    (by rw [hr1fs]; exact hme)
    (by rw [hr1fs, nfo_path_congr pm hb2 hf2]; exact hnf)
    (by rw [hr1fs, poster_path_congr pm hb2 hf2]; exact hpo)
    (by rw [hr1fs, subtitle_path_congr pm hb2 hf2]; exact hsu)
    (by rw [hr1fs, video_path_congr pm hb2 hf2]; exact hvid5)
  show (process_favorite_item pm env2 upper true true true true true r1.item r1.fs).effs.filter
      isNetworkEff = [] ∧
    (process_favorite_item pm env2 upper true true true true true r1.item r1.fs).effs.filter
      isMuxEff = [] ∧
    (process_favorite_item pm env2 upper true true true true true r1.item r1.fs).item.downloaded
      = true
  rw [hall]
  refine ⟨?_, ?_, rfl⟩ <;> simp [isNetworkEff, isMuxEff]

/-- C2 witness: concrete second run with the final file present. -/
theorem item_processor_idempotent_witness :
    let r1 := process_favorite_item exPm exEnvOk exUpper true true true true true exItem
      [video_path exPm exItem]
    let r2 := process_favorite_item exPm exEnvMuxFail exUpper true true true true true
      r1.item r1.fs
    r2.effs.filter isNetworkEff = [] ∧ r2.effs.filter isMuxEff = [] ∧
    r2.item.downloaded = true :=
  item_processor_idempotent exPm exEnvOk exEnvMuxFail exUpper exItem [video_path exPm exItem]
    rfl (by simp) rfl rfl rfl rfl

/-- C4 (observed code behavior at the failing input): `communicate()` never
inspects the ffmpeg exit status (src/processor.py lines 301, 320), so when
the mux tool exits non-zero the code still unlinks both temp files, still
sets `downloaded := true`, and saves the entry — although the final media
file was never produced — so the entry is not retried on the next cycle.
This contradicts the spec's §7(e) retention/retry design. -/
theorem mux_nonzero_exit_behavior :
    ((process_favorite_item exPm exEnvMuxFail exUpper true true true true true exItem
      []).item.downloaded = true) ∧
    (video_path exPm exItem ∉
      (process_favorite_item exPm exEnvMuxFail exUpper true true true true true exItem []).fs) ∧
    (Effect.unlink (tmp_video_path exPm exItem) ∈
      (process_favorite_item exPm exEnvMuxFail exUpper true true true true true exItem
        []).effs) ∧
    (Effect.unlink (tmp_audio_path exPm exItem) ∈
      (process_favorite_item exPm exEnvMuxFail exUpper true true true true true exItem
        []).effs) ∧
    (tmp_video_path exPm exItem ∉
      (process_favorite_item exPm exEnvMuxFail exUpper true true true true true exItem []).fs) ∧
    (tmp_audio_path exPm exItem ∉
      (process_favorite_item exPm exEnvMuxFail exUpper true true true true true exItem []).fs) ∧
    (Effect.save ∈
      (process_favorite_item exPm exEnvMuxFail exUpper true true true true true exItem
        []).effs) := by
  decide

/-! ### Pagination termination -/

theorem dbAfter_nil (favId : Nat) (db : List FavoriteItem) : dbAfter favId db [] = db := rfl

theorem dbAfter_cons (favId : Nat) (db : List FavoriteItem) (p : PageResponse)
    (ps : List PageResponse) :
    dbAfter favId db (p :: ps) = dbAfter favId (manage_model favId p.medias db) ps := rfl

theorem sync_pages_spec (favId : Nat) :
    ∀ (remote : List PageResponse) (start : Nat) (db : List FavoriteItem),
      remote ≠ [] → last_page_final remote = true →
      ∃ k, 1 ≤ k ∧ k ≤ remote.length ∧
        (sync_pages favId remote start db).1 = List.range' start k ∧
        (∀ j, j + 1 < k → ∃ r, remote[j]? = some r ∧
          stop_now favId r (dbAfter favId db (remote.take j)) = false) ∧
        (∃ r, remote[k - 1]? = some r ∧
          stop_now favId r (dbAfter favId db (remote.take (k - 1))) = true) := by
  intro remote
  induction remote with
  | nil => intro start db h _; exact absurd rfl h
  | cons resp rest ih =>
    intro start db _ hfin
    cases hcond : continue_flag favId resp.medias db && resp.has_more with
    | false =>
      refine ⟨1, le_refl 1, by simp, ?_, ?_, ?_⟩
      · show (sync_pages favId (resp :: rest) start db).1 = List.range' start 1
        simp only [sync_pages, hcond, Bool.false_eq_true, if_false, List.range'_one]
      · intro j hj; omega
      · refine ⟨resp, by simp, ?_⟩
        simp [stop_now, dbAfter_nil, hcond]
    | true =>
      have hrest_ne : rest ≠ [] := by
        rintro rfl
        have h1 : last_page_final [resp] = !resp.has_more := by
          simp [last_page_final]
        rw [h1] at hfin
        rw [Bool.and_eq_true] at hcond
        rw [hcond.2] at hfin
        simp at hfin
      have hfin' : last_page_final rest = true := by
        cases rest with
        | nil => exact absurd rfl hrest_ne
        | cons b t =>
          unfold last_page_final at hfin ⊢
          rwa [List.getLast?_cons_cons] at hfin
      obtain ⟨k, hk1, hk2, hfetch, hmid, hlast⟩ :=
        ih (start + 1) (manage_model favId resp.medias db) hrest_ne hfin'
      refine ⟨k + 1, by omega, by simpa using Nat.succ_le_succ hk2, ?_, ?_, ?_⟩
      · show (sync_pages favId (resp :: rest) start db).1 = List.range' start (k + 1)
        simp only [sync_pages, hcond, if_true]
        rw [List.range'_succ, hfetch]
      · intro j hj
        match j with
        | 0 =>
          refine ⟨resp, by simp, ?_⟩
          simp [stop_now, dbAfter_nil, hcond]
        | j' + 1 =>
          obtain ⟨r, hr1, hr2⟩ := hmid j' (by omega)
          refine ⟨r, by simpa using hr1, ?_⟩
          rw [List.take_succ_cons, dbAfter_cons]
          exact hr2
      · obtain ⟨r, hr1, hr2⟩ := hlast
        have hkk : k + 1 - 1 = (k - 1) + 1 := by omega
        refine ⟨r, ?_, ?_⟩
        · rw [hkk, List.getElem?_cons_succ]
          exact hr1
        · rw [hkk, List.take_succ_cons, dbAfter_cons]
          exact hr2

/-- C1: for every collection, the paging loop fetches consecutive pages
1..k; every page before the last fetched one passed the continue check
(its (bvid, fav_time) pairs were disjoint from the rows persisted at that
moment, and the remote reported more pages), and the last fetched page is
exactly where the stop condition first holds — its pair set intersects the
persisted rows or the remote reports no more pages.  In particular, on the
concrete 3-page remote `exRemote` with a persisted pair matching page 2,
pages 1 and 2 are fetched and page 3 is not. -/
theorem pagination_termination :
    (∀ (favId : Nat) (remote : List PageResponse) (db : List FavoriteItem),
      remote ≠ [] → last_page_final remote = true →
      ∃ k, 1 ≤ k ∧ k ≤ remote.length ∧
        (process_favorite_sync favId remote db).1 = List.range' 1 k ∧
        (∀ j, j + 1 < k → ∃ r, remote[j]? = some r ∧
          stop_now favId r (dbAfter favId db (remote.take j)) = false) ∧
        (∃ r, remote[k - 1]? = some r ∧
          stop_now favId r (dbAfter favId db (remote.take (k - 1))) = true)) ∧
    (process_favorite_sync 1 exRemote exDb).1 = [1, 2] := by
  constructor
  · intro favId remote db h1 h2
    exact sync_pages_spec favId remote 1 db h1 h2
  · decide

/-- C1 witness: the general pagination spec applied to the concrete 3-page
remote. -/
theorem pagination_termination_witness :
    ∃ k, 1 ≤ k ∧ k ≤ exRemote.length ∧
      (process_favorite_sync 1 exRemote exDb).1 = List.range' 1 k ∧
      (∀ j, j + 1 < k → ∃ r, exRemote[j]? = some r ∧
        stop_now 1 r (dbAfter 1 exDb (exRemote.take j)) = false) ∧
      (∃ r, exRemote[k - 1]? = some r ∧
        stop_now 1 r (dbAfter 1 exDb (exRemote.take (k - 1))) = true) :=
  pagination_termination.1 1 exRemote exDb (by decide) (by decide)

/-! ### Upsert correctness -/

theorem keyMatches_updateFields (b : String) (fid : Nat) (n r : FavoriteItem) :
    keyMatches b fid (updateFields n r) = keyMatches b fid r := rfl

theorem keyMatches_upd (b : String) (fid : Nat) (n r : FavoriteItem) :
    keyMatches b fid (if sameKey r n then updateFields n r else r) = keyMatches b fid r := by
  by_cases h : sameKey r n = true <;> simp [h, keyMatches_updateFields]

theorem keyCount_map_upsert (db : List FavoriteItem) (n : FavoriteItem) (b : String)
    (fid : Nat) :
    keyCount (db.map (fun r => if sameKey r n then updateFields n r else r)) b fid =
      keyCount db b fid := by
  unfold keyCount
  rw [List.countP_map]
  apply List.countP_congr
  intro r _
  simp only [Function.comp_apply]
  rw [keyMatches_upd]

theorem keyCount_append_one (db : List FavoriteItem) (n : FavoriteItem) (b : String)
    (fid : Nat) :
    keyCount (db ++ [n]) b fid =
      keyCount db b fid + (if keyMatches b fid n = true then 1 else 0) := by
  unfold keyCount
  rw [List.countP_append]
  congr 1
  by_cases h : keyMatches b fid n = true <;> simp [List.countP_cons, h]

theorem keyCount_pos_of_any (db : List FavoriteItem) (n : FavoriteItem)
    (h : db.any (fun r => sameKey r n) = true) :
    1 ≤ keyCount db n.bvid n.favorite_list_id := by
  rw [List.any_eq_true] at h
  obtain ⟨r, hr, hk⟩ := h
  have hpos : 0 < List.countP (keyMatches n.bvid n.favorite_list_id) db :=
    List.countP_pos.mpr ⟨r, hr, hk⟩
  unfold keyCount
  omega

theorem keyCount_zero_of_not_any (db : List FavoriteItem) (n : FavoriteItem)
    (h : db.any (fun r => sameKey r n) = false) :
    keyCount db n.bvid n.favorite_list_id = 0 := by
  unfold keyCount
  rw [List.countP_eq_zero]
  intro r hr
  rw [List.any_eq_false] at h
  exact h r hr

theorem upsert_conflict_eq (db : List FavoriteItem) (n : FavoriteItem)
    (h : db.any (fun r => sameKey r n) = true) :
    upsert_item db n = db.map (fun r => if sameKey r n then updateFields n r else r) := by
  unfold upsert_item
  rw [if_pos h]

theorem upsert_new_eq (db : List FavoriteItem) (n : FavoriteItem)
    (h : db.any (fun r => sameKey r n) = false) :
    upsert_item db n = db ++ [n] := by
  unfold upsert_item
  rw [if_neg (by simp [h])]

/-- C8: upserting a media record twice for the same (bvid, collection id)
key — here with possibly changed non-key fields the second time — never
creates a duplicate row: the key count stays exactly 1 and the uniqueness
invariant is preserved; the surviving row carries the refreshed name, kind,
description, cover and timestamps of the latest record, while its `status`,
`downloaded` and `tags` are exactly the values persisted before the
synchronization (or the column defaults Normal/false/null when the row is
new) — synchronization never touches them. -/
theorem upsert_refresh_no_duplicate (db : List FavoriteItem) (favId : Nat) (m₁ m₂ : Media)
    (hb : m₂.bvid = m₁.bvid) (hu : uniqueKeys db) :
    let db1 := manage_model favId [m₁] db
    let db2 := manage_model favId [m₂] db1
    uniqueKeys db2 ∧
    keyCount db2 m₁.bvid favId = 1 ∧
    ∀ r ∈ db2, keyMatches m₁.bvid favId r = true →
      r.name = m₂.title ∧ r.type = m₂.type ∧ r.desc = m₂.intro ∧ r.cover = m₂.cover ∧
      r.ctime = m₂.ctime ∧ r.pubtime = m₂.pubtime ∧ r.fav_time = m₂.fav_time ∧
      ((∃ r0 ∈ db, keyMatches m₁.bvid favId r0 = true ∧ r.status = r0.status ∧
          r.downloaded = r0.downloaded ∧ r.tags = r0.tags) ∨
        (keyCount db m₁.bvid favId = 0 ∧ r.status = .normal ∧ r.downloaded = false ∧
          r.tags = none)) := by
  intro db1 db2
  have hdb1 : db1 = upsert_item db (mkFavoriteItem favId m₁) := rfl
  have hdb2 : db2 = upsert_item db1 (mkFavoriteItem favId m₂) := rfl
  have hsk : ∀ r : FavoriteItem,
      sameKey r (mkFavoriteItem favId m₂) = sameKey r (mkFavoriteItem favId m₁) := by
    intro r
    simp [sameKey, mkFavoriteItem, hb]
  cases hany : db.any (fun r => sameKey r (mkFavoriteItem favId m₁)) with
  | true =>
    have hmap1 : db1 = db.map (fun r =>
        if sameKey r (mkFavoriteItem favId m₁) then updateFields (mkFavoriteItem favId m₁) r
        else r) := by
      rw [hdb1, upsert_conflict_eq db _ hany]
    have hany2 : db1.any (fun r => sameKey r (mkFavoriteItem favId m₂)) = true := by
      rw [List.any_eq_true] at hany ⊢
      obtain ⟨r, hr, hk⟩ := hany
      refine ⟨if sameKey r (mkFavoriteItem favId m₁) then
        updateFields (mkFavoriteItem favId m₁) r else r, ?_, ?_⟩
      · rw [hmap1]
        exact List.mem_map_of_mem _ hr
      · rw [hsk]
        simp only [hk, if_true]
        exact hk
    have hmap2 : db2 = db1.map (fun r =>
        if sameKey r (mkFavoriteItem favId m₂) then updateFields (mkFavoriteItem favId m₂) r
        else r) := by
      rw [hdb2, upsert_conflict_eq db1 _ hany2]
    have hc2 : keyCount db2 m₁.bvid favId = keyCount db m₁.bvid favId := by
      rw [hmap2, keyCount_map_upsert, hmap1, keyCount_map_upsert]
    have hcpos : 1 ≤ keyCount db m₁.bvid favId := keyCount_pos_of_any db _ hany
    refine ⟨?_, ?_, ?_⟩
    · intro b fid
      rw [hmap2, keyCount_map_upsert, hmap1, keyCount_map_upsert]
      exact hu b fid
    · have := hu m₁.bvid favId
      omega
    · intro r' hr' hkm'
      rw [hmap2] at hr'
      obtain ⟨r1, hr1, rfl⟩ := List.mem_map.mp hr'
      rw [hmap1] at hr1
      obtain ⟨r0, hr0, rfl⟩ := List.mem_map.mp hr1
      rw [keyMatches_upd, keyMatches_upd] at hkm'
      have hk0 : sameKey r0 (mkFavoriteItem favId m₁) = true := hkm'
      have hk1 : sameKey (updateFields (mkFavoriteItem favId m₁) r0)
          (mkFavoriteItem favId m₂) = true := by
        rw [hsk]
        exact hk0
      simp only [hk0, if_true, hk1]
      refine ⟨rfl, rfl, rfl, rfl, rfl, rfl, rfl, Or.inl ⟨r0, hr0, hkm', rfl, rfl, rfl⟩⟩
  | false =>
    have h0 : keyCount db m₁.bvid favId = 0 := keyCount_zero_of_not_any db _ hany
    have happ : db1 = db ++ [mkFavoriteItem favId m₁] := by
      rw [hdb1, upsert_new_eq db _ hany]
    have hself : sameKey (mkFavoriteItem favId m₁) (mkFavoriteItem favId m₂) = true := by
      rw [hsk]
      simp [sameKey]
    have hany2 : db1.any (fun r => sameKey r (mkFavoriteItem favId m₂)) = true := by
      rw [happ, List.any_eq_true]
      exact ⟨mkFavoriteItem favId m₁, by simp, hself⟩
    have hall : ∀ r ∈ db, sameKey r (mkFavoriteItem favId m₁) = false := by
      rw [List.any_eq_false] at hany
      intro r hr
      simpa using hany r hr
    have hdb2' : db2 = db ++ [updateFields (mkFavoriteItem favId m₂)
        (mkFavoriteItem favId m₁)] := by
      rw [hdb2, upsert_conflict_eq db1 _ hany2, happ, List.map_append]
      congr 1
      · have hid : ∀ r ∈ db, (fun r =>
            if sameKey r (mkFavoriteItem favId m₂) then
              updateFields (mkFavoriteItem favId m₂) r else r) r = id r := by
          intro r hr
          simp [hsk, hall r hr]
        rw [List.map_congr_left hid, List.map_id]
      · simp [hself]
    have hkmn : keyMatches m₁.bvid favId
        (updateFields (mkFavoriteItem favId m₂) (mkFavoriteItem favId m₁)) = true := by
      rw [keyMatches_updateFields]
      simp [keyMatches, mkFavoriteItem]
    refine ⟨?_, ?_, ?_⟩
    · intro b fid
      rw [hdb2', keyCount_append_one]
      by_cases hkm' : keyMatches b fid (updateFields (mkFavoriteItem favId m₂)
          (mkFavoriteItem favId m₁)) = true
      · have hbf : m₁.bvid = b ∧ favId = fid := by
          simpa [keyMatches_updateFields, keyMatches, mkFavoriteItem] using hkm'
        obtain ⟨rfl, rfl⟩ := hbf
        rw [if_pos hkm', h0]
      · rw [if_neg hkm']
        have := hu b fid
        omega
    · rw [hdb2', keyCount_append_one, h0, if_pos hkmn]
    · intro r' hr' hkm'
      rw [hdb2'] at hr'
      rcases List.mem_append.mp hr' with hin | hin
      · exfalso
        have hpos : 0 < List.countP (keyMatches m₁.bvid favId) db :=
          List.countP_pos.mpr ⟨r', hin, hkm'⟩
        unfold keyCount at h0
        omega
      · have heq : r' = updateFields (mkFavoriteItem favId m₂) (mkFavoriteItem favId m₁) := by
          simpa using hin
        subst heq
        exact ⟨rfl, rfl, rfl, rfl, rfl, rfl, rfl, Or.inr ⟨h0, rfl, rfl, rfl⟩⟩

/-- C8 witness: re-upserting the pair with a changed title against a
one-row table keeps a single row. -/
theorem upsert_refresh_no_duplicate_witness :
    let db1 := manage_model 1 [exMedia "a" 10] [mkFavoriteItem 1 (exMedia "a" 3)]
    let db2 := manage_model 1 [{ exMedia "a" 10 with title := "t2" }] db1
    uniqueKeys db2 ∧
    keyCount db2 "a" 1 = 1 ∧
    ∀ r ∈ db2, keyMatches "a" 1 r = true →
      r.name = "t2" ∧ r.type = MediaType.video ∧ r.desc = "" ∧ r.cover = "" ∧
      r.ctime = 0 ∧ r.pubtime = 0 ∧ r.fav_time = 10 ∧
      ((∃ r0 ∈ [mkFavoriteItem 1 (exMedia "a" 3)], keyMatches "a" 1 r0 = true ∧
          r.status = r0.status ∧ r.downloaded = r0.downloaded ∧ r.tags = r0.tags) ∨
        (keyCount [mkFavoriteItem 1 (exMedia "a" 3)] "a" 1 = 0 ∧ r.status = .normal ∧
          r.downloaded = false ∧ r.tags = none)) :=
  upsert_refresh_no_duplicate [mkFavoriteItem 1 (exMedia "a" 3)] 1 (exMedia "a" 10)
    { exMedia "a" 10 with title := "t2" } rfl
    (fun b fid => le_trans (List.countP_le_length _) (by simp))
